import Mathlib

/-!
Verification of the Gbot recipe sampler (`GbotV2.py`).

The development shallowly embeds the core of the program:

* `strContains` models Python's substring test `needle in hay` on code points;
* `scanLocs` and `get_recipe_urls_from_sitemap` model
  `_get_recipe_urls_from_sitemap` (streaming scan plus full-document
  fallback on a streaming parse failure);
* `recordMatch`, `scrapeLoop` and `scrape_recipes` model the sampling /
  matching loop of `scrape_recipes` (lines 195-260 of the source): network
  fetches are modelled by a function `String → Option (String × String)`
  where `none` stands for a `requests.RequestException`;
* `scrapeLoopInterrupted` models the same loop when a `KeyboardInterrupt`
  arrives after a given number of iterations;
* `pick_random_recipe` models the picker, with the random index supplied
  by an oracle natural number.
-/

set_option autoImplicit false

namespace Gbot

/-- `Recipe` dataclass: frozen pair of `title` and `url`. -/
structure Recipe where
  title : String
  url : String
deriving DecidableEq, Repr

/-- Leading-match test on code points: `charsLeading n h` is true when the
list `n` occurs at the very front of `h`. -/
def charsLeading : List Char → List Char → Bool
  | [], _ => true
  | _ :: _, [] => false
  | a :: as, b :: bs => a == b && charsLeading as bs

/-- Substring occurrence on code points: true when `needle` occurs
contiguously somewhere in `hay`. -/
def charsContain (hay needle : List Char) : Bool :=
  match hay with
  | [] => needle.isEmpty
  | _ :: rest => charsLeading needle hay || charsContain rest needle

/-- Model of Python's `needle in hay` for strings: contiguous substring
test over the sequences of code points. -/
def strContains (hay needle : String) : Bool :=
  charsContain hay.toList needle.toList

/-- Model of Python's `s.strip()`: drop whitespace code points from both
ends. -/
def pyStrip (s : String) : String :=
  ⟨((s.toList.dropWhile Char.isWhitespace).reverse.dropWhile Char.isWhitespace).reverse⟩

/-- Model of Python's `s.lower()`: lower-case every code point. -/
def pyLower (s : String) : String :=
  ⟨s.toList.map Char.toLower⟩

/-- Model of Python's `s.endswith(post)`: the code points of `post` close
the sequence of code points of `s`. -/
def strEndsWith (s post : String) : Bool :=
  charsLeading post.toList.reverse s.toList.reverse

/-- One parsed XML element as seen by the sitemap scan: its tag and its
text (`none` models Python `elem.text is None`). -/
structure XmlElem where
  tag : String
  text : Option String
deriving DecidableEq, Repr

/-- The recipe-path marker tested on every sitemap location (source
lines 71 and 86). -/
def RECIPE_MARKER : String := "/allerhande/recept/"

/-- The shared body of the streaming loop and the fallback loop of
`_get_recipe_urls_from_sitemap` (source lines 68-75 and 83-89): for each
element whose tag ends with `"loc"` and whose text is truthy, strip the
text and append it when it contains the marker; stop as soon as the
accumulated list reaches `max_urls`.  The boolean result records whether
the scan stopped early via the `break` (in which case the Python function
returns at once and no later parse error can occur). -/
def scanLocs (max_urls : Nat) : List XmlElem → List String → List String × Bool
  | [], urls => (urls, false)
  | e :: rest, urls =>
    match e.text with
    | some txt =>
      if strEndsWith e.tag "loc" ∧ txt ≠ "" then
        if strContains (pyStrip txt) RECIPE_MARKER then
          if max_urls ≤ (urls ++ [pyStrip txt]).length then (urls ++ [pyStrip txt], true)
          else scanLocs max_urls rest (urls ++ [pyStrip txt])
        else scanLocs max_urls rest urls
      else scanLocs max_urls rest urls
    | none => scanLocs max_urls rest urls

/-- A sitemap response as the XML layer presents it to the code:
the elements the streaming parser yields before either finishing or
raising `ET.ParseError` (`streamFails`), and the elements of the
full-document fallback parse. -/
structure SitemapDoc where
  streamElems : List XmlElem
  streamFails : Bool
  fullElems : List XmlElem
deriving DecidableEq, Repr

/-- Model of `_get_recipe_urls_from_sitemap` (source lines 44-90).  The
streaming scan runs first; if it broke out early it returns inside the
`try`, so the fallback never runs.  Otherwise, when the streaming parse
fails, the fallback rescans the full document, continuing to append to
the `urls` list already accumulated (the Python `urls` variable is shared
by both loops). -/
def get_recipe_urls_from_sitemap (doc : SitemapDoc) (max_urls : Nat) : List String :=
  let res := scanLocs max_urls doc.streamElems []
  if res.2 then res.1
  else if doc.streamFails then (scanLocs max_urls doc.fullElems res.1).1
  else res.1

/-- Insertion into the `found` dict keyed by `(title, url)` (source
line 253).  Python's dict keeps the first position and the stored value
equals the key's `Recipe`, so re-inserting an existing key leaves
`list(found.values())` unchanged; hence the model appends only when the
key is new. -/
def insertRecipe (found : List Recipe) (title url : String) : List Recipe :=
  if Recipe.mk title url ∈ found then found
  else found ++ [Recipe.mk title url]

/-- The per-candidate match decision (source lines 251-253):
lower-case the fetched tags text and record the recipe exactly when both
(already stripped and lower-cased) keywords occur as substrings. -/
def recordMatch (want_a want_b : String) (found : List Recipe)
    (title url tags_text : String) : List Recipe :=
  if strContains (pyLower tags_text) want_a && strContains (pyLower tags_text) want_b then
    insertRecipe found title url
  else found

/-- A page fetch: `none` models `requests.RequestException`, `some
(title, tags_text)` a successful `_fetch_recipe_title_and_tags`. -/
def Fetch : Type := String → Option (String × String)

/-- The sampling loop of `scrape_recipes` (source lines 232-256): walk
the shuffled candidates, stop when the attempt budget is spent or the
match target is reached, count every attempt (failed fetches included),
and record the matching recipes.  Returns `(tried, found)`. -/
def scrapeLoop (fetch : Fetch) (want_a want_b : String)
    (max_attempts target : Nat) :
    List String → Nat → List Recipe → Nat × List Recipe
  | [], tried, found => (tried, found)
  | url :: rest, tried, found =>
    if max_attempts ≤ tried then (tried, found)
    else if target ≤ found.length then (tried, found)
    else
      match fetch url with
      | none =>
          scrapeLoop fetch want_a want_b max_attempts target rest (tried + 1) found
      | some (title, tags_text) =>
          scrapeLoop fetch want_a want_b max_attempts target rest (tried + 1)
            (recordMatch want_a want_b found title url tags_text)

/-- One step of the linear congruential generator used to model the
seeded pseudo-random stream. -/
def lcgNext (s : Nat) : Nat := (s * 1103515245 + 12345) % 2147483648

/-- Swap two positions of a list, a no-op when either index is out of
range. -/
def listSwap (l : List String) (i j : Nat) : List String :=
  match l.get? i, l.get? j with
  | some x, some y => (l.set i y).set j x
  | _, _ => l

/-- Fisher-Yates pass, from position `i` (the first argument is `i`)
down to `1`, driven by the generator state. -/
def fyGo : Nat → Nat → List String → List String
  | 0, _, l => l
  | i + 1, st, l =>
    let st' := lcgNext st
    let j := st' % (i + 2)
    fyGo i st' (listSwap l (i + 1) j)

/-- Modelled from the spec: `random.Random(seed).shuffle(urls)` — the
seeded generator is Python standard-library code outside this
repository; the spec only requires "a seeded deterministic generator",
modelled here as a Fisher-Yates shuffle driven by a deterministic linear
congruential generator. -/
def seededShuffle (seed : Nat) (l : List String) : List String :=
  fyGo (l.length - 1) (lcgNext seed) l

/-- The shuffle step of `scrape_recipes` (source lines 226-230): seeded
and deterministic when a seed is supplied, otherwise an arbitrary
nondeterministic reordering supplied by `oracle` (modelling the
unseeded `random.shuffle`). -/
def shuffleUrls (seed : Option Nat) (oracle : List String → List String)
    (urls : List String) : List String :=
  match seed with
  | some s => seededShuffle s urls
  | none => oracle urls

/-- Model of `scrape_recipes` (source lines 195-260), with the sitemap
step already performed: `sitemapUrls` is the candidate list returned by
the Sitemap Reader.  Returns the pair `(tried, found)`; the Python
function returns only `list(found.values())`, which is the second
component. -/
def scrape_recipes (fetch : Fetch) (sitemapUrls : List String)
    (want_kooktechniek want_menugang : String)
    (max_attempts : Nat) (target_matches : Int)
    (seed : Option Nat) (oracle : List String → List String) :
    Nat × List Recipe :=
  if sitemapUrls.isEmpty then (0, [])
  else
    let want_a := pyLower (pyStrip want_kooktechniek)
    let want_b := pyLower (pyStrip want_menugang)
    let urls := shuffleUrls seed oracle sitemapUrls
    scrapeLoop fetch want_a want_b max_attempts (max 1 target_matches).toNat urls 0 []

/-- The sampling loop when a `KeyboardInterrupt` arrives after `k`
further iterations (source lines 232-260): the interrupt is caught, the
loop stops, and the pair accumulated so far is returned normally — the
function is total and never re-raises. -/
def scrapeLoopInterrupted (fetch : Fetch) (want_a want_b : String)
    (max_attempts target : Nat) :
    Nat → List String → Nat → List Recipe → Nat × List Recipe
  | 0, _, tried, found => (tried, found)
  | _ + 1, [], tried, found => (tried, found)
  | k + 1, url :: rest, tried, found =>
    if max_attempts ≤ tried then (tried, found)
    else if target ≤ found.length then (tried, found)
    else
      match fetch url with
      | none =>
          scrapeLoopInterrupted fetch want_a want_b max_attempts target k rest
            (tried + 1) found
      | some (title, tags_text) =>
          scrapeLoopInterrupted fetch want_a want_b max_attempts target k rest
            (tried + 1) (recordMatch want_a want_b found title url tags_text)

/-- The message of the `RuntimeError` raised by `pick_random_recipe`
(source lines 266-268). -/
def NO_CANDIDATES_MSG : String :=
  "Geen recepten gevonden binnen het aantal pogingen. Verhoog max_attempts of maak de filters ruimer."

/-- Model of `pick_random_recipe` (source lines 263-269).  The random
draw of `random.choice` is modelled by an oracle index taken modulo the
length; the empty input raises the designated `RuntimeError`, modelled
as `Except.error`. -/
def pick_random_recipe (choiceIdx : Nat) (recipes : List Recipe) :
    Except String Recipe :=
  if h : recipes.length = 0 then Except.error NO_CANDIDATES_MSG
  else
    Except.ok (recipes.get ⟨choiceIdx % recipes.length,
      Nat.mod_lt _ (Nat.pos_of_ne_zero h)⟩)

/-! ### Basic lemmas about the substring test and match recording -/

theorem charsContain_nil (l : List Char) : charsContain l [] = true := by
  cases l <;> simp [charsContain, charsLeading]

theorem strContains_empty (s : String) : strContains s "" = true := by
  unfold strContains
  exact charsContain_nil s.toList

theorem mem_insertRecipe_self (found : List Recipe) (title url : String) :
    Recipe.mk title url ∈ insertRecipe found title url := by
  unfold insertRecipe
  by_cases hm : Recipe.mk title url ∈ found <;> simp [hm]

theorem mem_insertRecipe_of_mem {r : Recipe} (found : List Recipe)
    (title url : String) (h : r ∈ found) : r ∈ insertRecipe found title url := by
  unfold insertRecipe
  by_cases hm : Recipe.mk title url ∈ found <;> simp [hm, h]

theorem length_insertRecipe_le (found : List Recipe) (title url : String) :
    (insertRecipe found title url).length ≤ found.length + 1 := by
  unfold insertRecipe
  by_cases hm : Recipe.mk title url ∈ found <;> simp [hm]

theorem mem_recordMatch_of_mem {r : Recipe} (want_a want_b : String)
    (found : List Recipe) (title url tags_text : String) (h : r ∈ found) :
    r ∈ recordMatch want_a want_b found title url tags_text := by
  unfold recordMatch
  split
  · exact mem_insertRecipe_of_mem found title url h
  · exact h

theorem length_recordMatch_le (want_a want_b : String) (found : List Recipe)
    (title url tags_text : String) :
    (recordMatch want_a want_b found title url tags_text).length ≤ found.length + 1 := by
  unfold recordMatch
  split
  · exact length_insertRecipe_le found title url
  · omega

theorem mem_recordMatch_self_of_both (want_a want_b : String) (found : List Recipe)
    (title url tags_text : String)
    (hA : strContains (pyLower tags_text) want_a = true)
    (hB : strContains (pyLower tags_text) want_b = true) :
    Recipe.mk title url ∈ recordMatch want_a want_b found title url tags_text := by
  unfold recordMatch
  rw [if_pos (by rw [hA, hB]; rfl)]
  exact mem_insertRecipe_self found title url

/-! ### Claim theorems C1, C4, C7 -/

/-- C1: a candidate page fetched successfully is recorded as a match if
and only if both (stripped, lower-cased) filter keywords occur as
substrings of the lower-cased haystack; in particular a haystack
containing only one of the two keywords is never recorded. -/
theorem recordMatch_mem_iff_both_keywords (want_a want_b title url tags_text : String)
    (found : List Recipe) (h : Recipe.mk title url ∉ found) :
    Recipe.mk title url ∈ recordMatch want_a want_b found title url tags_text ↔
      (strContains (pyLower tags_text) want_a = true ∧
       strContains (pyLower tags_text) want_b = true) := by
  have hself := mem_insertRecipe_self found title url
  by_cases hA : strContains (pyLower tags_text) want_a = true <;>
    by_cases hB : strContains (pyLower tags_text) want_b = true <;>
    simp [recordMatch, hA, hB, hself, h]

/-- C1 witness: a haystack containing only the first keyword is not
recorded as a match. -/
theorem recordMatch_mem_iff_both_keywords_witness :
    Recipe.mk "Stamppot" "u" ∉
      recordMatch "koken" "hoofdgerecht" [] "Stamppot" "u" "Koken met plezier" := by
  intro hmem
  have hboth := (recordMatch_mem_iff_both_keywords "koken" "hoofdgerecht" "Stamppot" "u"
    "Koken met plezier" [] (by simp)).mp hmem
  exact absurd hboth.2 (by decide)

/-- C4: the Picker fails with the designated "no candidates" error on an
empty sequence, and on a non-empty sequence returns an element of the
input, whatever the random draw. -/
theorem pick_random_recipe_spec (choiceIdx : Nat) (recipes : List Recipe) :
    (recipes = [] →
      pick_random_recipe choiceIdx recipes = Except.error NO_CANDIDATES_MSG) ∧
    (recipes ≠ [] →
      ∃ r, pick_random_recipe choiceIdx recipes = Except.ok r ∧ r ∈ recipes) := by
  constructor
  · rintro rfl
    rfl
  · intro hne
    have hlen : recipes.length ≠ 0 := by simpa [List.length_eq_zero] using hne
    refine ⟨recipes.get ⟨choiceIdx % recipes.length,
      Nat.mod_lt _ (Nat.pos_of_ne_zero hlen)⟩, ?_, ?_⟩
    · unfold pick_random_recipe
      rw [dif_neg hlen]
    · exact List.get_mem recipes _ _

/-- C4 witness: concrete empty and non-empty inputs. -/
theorem pick_random_recipe_spec_witness :
    pick_random_recipe 0 [] = Except.error NO_CANDIDATES_MSG ∧
    ∃ r, pick_random_recipe 2 [Recipe.mk "a" "b"] = Except.ok r ∧
      r ∈ [Recipe.mk "a" "b"] :=
  ⟨(pick_random_recipe_spec 0 []).1 rfl,
   (pick_random_recipe_spec 2 [Recipe.mk "a" "b"]).2 (by simp)⟩

/-- C7: an empty candidate list makes the Sampler/Matcher return
immediately with an empty match list and zero page-fetch attempts. -/
theorem scrape_recipes_empty_candidates (fetch : Fetch) (wk wm : String)
    (maxA : Nat) (tm : Int) (seed : Option Nat)
    (oracle : List String → List String) :
    scrape_recipes fetch [] wk wm maxA tm seed oracle = (0, []) := rfl

/-! ### Lemmas about the sampling loop -/

theorem scrapeLoop_fst_le_length (fetch : Fetch) (want_a want_b : String)
    (max_attempts target : Nat) :
    ∀ (urls : List String) (tried : Nat) (found : List Recipe),
      (scrapeLoop fetch want_a want_b max_attempts target urls tried found).1 ≤
        tried + urls.length := by
  intro urls
  induction urls with
  | nil => intro tried found; simp [scrapeLoop]
  | cons url rest ih =>
    intro tried found
    simp only [scrapeLoop, List.length_cons]
    split
    · dsimp only; omega
    · split
      · dsimp only; omega
      · cases hf : fetch url with
        | none =>
          dsimp only
          have := ih (tried + 1) found
          omega
        | some p =>
          obtain ⟨ti, ta⟩ := p
          dsimp only
          have := ih (tried + 1) (recordMatch want_a want_b found ti url ta)
          omega

theorem scrapeLoop_fst_le_budget (fetch : Fetch) (want_a want_b : String)
    (max_attempts target : Nat) :
    ∀ (urls : List String) (tried : Nat) (found : List Recipe),
      tried ≤ max_attempts →
      (scrapeLoop fetch want_a want_b max_attempts target urls tried found).1 ≤
        max_attempts := by
  intro urls
  induction urls with
  | nil => intro tried found h; simpa [scrapeLoop] using h
  | cons url rest ih =>
    intro tried found h
    simp only [scrapeLoop]
    split
    · dsimp only; omega
    · rename_i hbudget
      split
      · dsimp only; omega
      · cases hf : fetch url with
        | none =>
          dsimp only
          exact ih (tried + 1) found (by omega)
        | some p =>
          obtain ⟨ti, ta⟩ := p
          dsimp only
          exact ih (tried + 1) _ (by omega)

theorem scrapeLoop_snd_length_le (fetch : Fetch) (want_a want_b : String)
    (max_attempts target : Nat) :
    ∀ (urls : List String) (tried : Nat) (found : List Recipe),
      found.length ≤ target →
      (scrapeLoop fetch want_a want_b max_attempts target urls tried found).2.length ≤
        target := by
  intro urls
  induction urls with
  | nil => intro tried found h; simpa [scrapeLoop] using h
  | cons url rest ih =>
    intro tried found h
    simp only [scrapeLoop]
    split
    · dsimp only; omega
    · split
      · dsimp only; omega
      · rename_i htarget
        cases hf : fetch url with
        | none =>
          dsimp only
          exact ih (tried + 1) found h
        | some p =>
          obtain ⟨ti, ta⟩ := p
          dsimp only
          refine ih (tried + 1) _ ?_
          have := length_recordMatch_le want_a want_b found ti url ta
          omega

theorem scrapeLoop_mem_mono (fetch : Fetch) (want_a want_b : String)
    (max_attempts target : Nat) (r : Recipe) :
    ∀ (urls : List String) (tried : Nat) (found : List Recipe),
      r ∈ found →
      r ∈ (scrapeLoop fetch want_a want_b max_attempts target urls tried found).2 := by
  intro urls
  induction urls with
  | nil => intro tried found h; simpa [scrapeLoop] using h
  | cons url rest ih =>
    intro tried found h
    simp only [scrapeLoop]
    split
    · exact h
    · split
      · exact h
      · cases hf : fetch url with
        | none =>
          dsimp only
          exact ih (tried + 1) found h
        | some p =>
          obtain ⟨ti, ta⟩ := p
          dsimp only
          exact ih (tried + 1) _
            (mem_recordMatch_of_mem want_a want_b found ti url ta h)

/-! ### Lemmas about the seeded shuffle -/

theorem listSwap_length (l : List String) (i j : Nat) :
    (listSwap l i j).length = l.length := by
  unfold listSwap
  cases hx : l.get? i <;> cases hy : l.get? j <;> simp

theorem fyGo_length : ∀ (fuel st : Nat) (l : List String),
    (fyGo fuel st l).length = l.length := by
  intro fuel
  induction fuel with
  | zero => intro st l; rfl
  | succ k ih =>
    intro st l
    simp only [fyGo]
    rw [ih, listSwap_length]

theorem seededShuffle_length (s : Nat) (l : List String) :
    (seededShuffle s l).length = l.length :=
  fyGo_length (l.length - 1) (lcgNext s) l

/-! ### Claim theorems C2, C3, C5, C8, C9, C10 -/

/-- C2: a sampling run performs at most `min N B` page-fetch attempts,
for any fetch behaviour (so failed fetches count against the budget
exactly like successful ones). -/
theorem scrape_recipes_attempts_le_min (fetch : Fetch) (urls : List String)
    (wk wm : String) (maxA : Nat) (tm : Int) (seed : Option Nat)
    (oracle : List String → List String)
    (hOracle : (oracle urls).length = urls.length) :
    (scrape_recipes fetch urls wk wm maxA tm seed oracle).1 ≤
      min urls.length maxA := by
  simp only [scrape_recipes]
  split
  · simp
  · have hlen : (shuffleUrls seed oracle urls).length = urls.length := by
      cases seed with
      | none => simpa [shuffleUrls] using hOracle
      | some s => simp [shuffleUrls, seededShuffle_length]
    refine le_min ?_ ?_
    · have h1 := scrapeLoop_fst_le_length fetch (pyLower (pyStrip wk))
        (pyLower (pyStrip wm)) maxA (max 1 tm).toNat
        (shuffleUrls seed oracle urls) 0 []
      omega
    · exact scrapeLoop_fst_le_budget fetch (pyLower (pyStrip wk))
        (pyLower (pyStrip wm)) maxA (max 1 tm).toNat
        (shuffleUrls seed oracle urls) 0 [] (Nat.zero_le maxA)

/-- C2 witness: three candidates, budget two, all fetches failing. -/
theorem scrape_recipes_attempts_le_min_witness :
    (scrape_recipes (fun _ => none) ["u1", "u2", "u3"] "koken" "hoofdgerecht"
      2 1 none id).1 ≤ min 3 2 :=
  scrape_recipes_attempts_le_min (fun _ => none) ["u1", "u2", "u3"]
    "koken" "hoofdgerecht" 2 1 none id rfl

/-- C3: with a seed supplied, the shuffled order and the whole run result
are functions of the seed, the parameters and the candidate list alone:
two runs with the same seed agree element for element, whatever the
behaviour of the unseeded generator. -/
theorem scrape_recipes_seeded_deterministic (fetch : Fetch) (urls : List String)
    (wk wm : String) (maxA : Nat) (tm : Int) (s1 s2 : Nat)
    (o1 o2 : List String → List String) (hs : s1 = s2) :
    shuffleUrls (some s1) o1 urls = shuffleUrls (some s2) o2 urls ∧
    scrape_recipes fetch urls wk wm maxA tm (some s1) o1 =
      scrape_recipes fetch urls wk wm maxA tm (some s2) o2 := by
  subst hs
  exact ⟨rfl, rfl⟩

/-- C3 witness: two seeded runs over the same candidates with different
unseeded generators coincide. -/
theorem scrape_recipes_seeded_deterministic_witness :
    shuffleUrls (some 42) id ["a", "b", "c"] =
      shuffleUrls (some 42) List.reverse ["a", "b", "c"] ∧
    scrape_recipes (fun _ => none) ["a", "b", "c"] "koken" "hoofdgerecht" 3 1
        (some 42) id =
      scrape_recipes (fun _ => none) ["a", "b", "c"] "koken" "hoofdgerecht" 3 1
        (some 42) List.reverse :=
  scrape_recipes_seeded_deterministic (fun _ => none) ["a", "b", "c"]
    "koken" "hoofdgerecht" 3 1 42 42 id List.reverse rfl

/-- C5 counterexample: with `target_matches = 0` the loop threshold is
`max(1, 0) = 1`, so a run that finds a match returns one recipe — more
than the requested zero. -/
theorem scrape_recipes_target_zero_counterexample :
    ¬ ((scrape_recipes (fun _ => some ("t", "Koken Hoofdgerecht")) ["u1"]
        "koken" "hoofdgerecht" 5 0 none id).2.length ≤ 0) := by decide

/-- C5 (amended): the match set at completion never exceeds
`max 1 target_matches` — the floor the source applies at line 236. -/
theorem scrape_recipes_match_count_le_floor (fetch : Fetch) (urls : List String)
    (wk wm : String) (maxA : Nat) (tm : Int) (seed : Option Nat)
    (oracle : List String → List String) :
    (scrape_recipes fetch urls wk wm maxA tm seed oracle).2.length ≤
      (max 1 tm).toNat := by
  simp only [scrape_recipes]
  split
  · simp
  · exact scrapeLoop_snd_length_le fetch (pyLower (pyStrip wk))
      (pyLower (pyStrip wm)) maxA (max 1 tm).toNat
      (shuffleUrls seed oracle urls) 0 [] (by simp)

/-- C8: a user interrupt arriving after `k` iterations makes the loop
return, normally and without re-raising, exactly the state collected in
the first `k` iterations — the uninterrupted loop run on `urls.take k`. -/
theorem scrapeLoopInterrupted_eq_take (fetch : Fetch) (want_a want_b : String)
    (max_attempts target : Nat) :
    ∀ (k : Nat) (urls : List String) (tried : Nat) (found : List Recipe),
      scrapeLoopInterrupted fetch want_a want_b max_attempts target k urls
        tried found =
      scrapeLoop fetch want_a want_b max_attempts target (urls.take k)
        tried found := by
  intro k
  induction k with
  | zero =>
    intro urls tried found
    cases urls <;> simp [scrapeLoopInterrupted, scrapeLoop]
  | succ k ih =>
    intro urls tried found
    cases urls with
    | nil => simp [scrapeLoopInterrupted, scrapeLoop]
    | cons url rest =>
      simp only [scrapeLoopInterrupted, List.take_succ_cons, scrapeLoop]
      split
      · rfl
      · split
        · rfl
        · cases hf : fetch url with
          | none =>
            dsimp only
            exact ih rest (tried + 1) found
          | some p =>
            obtain ⟨ti, ta⟩ := p
            dsimp only
            exact ih rest (tried + 1) _

/-- C9: the run depends on each filter keyword only through its stripped
form, so a keyword surrounded by whitespace behaves exactly like its
trimmed form. -/
theorem scrape_recipes_keyword_strip_equiv (fetch : Fetch) (urls : List String)
    (wk1 wk2 wm1 wm2 : String) (maxA : Nat) (tm : Int) (seed : Option Nat)
    (oracle : List String → List String)
    (ha : pyStrip wk1 = pyStrip wk2) (hb : pyStrip wm1 = pyStrip wm2) :
    scrape_recipes fetch urls wk1 wm1 maxA tm seed oracle =
      scrape_recipes fetch urls wk2 wm2 maxA tm seed oracle := by
  unfold scrape_recipes
  rw [ha, hb]

/-- C9 witness: whitespace-padded keywords give the same run as their
trimmed forms. -/
theorem scrape_recipes_keyword_strip_equiv_witness :
    scrape_recipes (fun _ => some ("t", "koken hoofdgerecht")) ["u"]
        "  koken " " hoofdgerecht  " 3 1 none id =
      scrape_recipes (fun _ => some ("t", "koken hoofdgerecht")) ["u"]
        "koken" "hoofdgerecht" 3 1 none id :=
  scrape_recipes_keyword_strip_equiv (fun _ => some ("t", "koken hoofdgerecht"))
    ["u"] "  koken " "koken" " hoofdgerecht  " "hoofdgerecht" 3 1 none id
    (by decide) (by decide)

/-- C10: when both keywords strip and lower-case to the empty string,
the empty string is a substring of every haystack, so every candidate
whose fetch succeeds (and that the loop actually attempts) is recorded
as a match. -/
theorem scrape_recipes_empty_keywords_match_all (fetch : Fetch) (wk wm : String)
    (hk : pyLower (pyStrip wk) = "") (hm2 : pyLower (pyStrip wm) = "")
    (maxA target : Nat) (url : String) (rest : List String) (tried : Nat)
    (found : List Recipe) (title tags_text : String)
    (htried : tried < maxA) (hfound : found.length < target)
    (hfetch : fetch url = some (title, tags_text)) :
    strContains (pyLower tags_text) "" = true ∧
    Recipe.mk title url ∈
      (scrapeLoop fetch (pyLower (pyStrip wk)) (pyLower (pyStrip wm)) maxA
        target (url :: rest) tried found).2 := by
  refine ⟨strContains_empty (pyLower tags_text), ?_⟩
  rw [hk, hm2]
  simp only [scrapeLoop]
  rw [if_neg (by omega), if_neg (by omega), hfetch]
  exact scrapeLoop_mem_mono fetch "" "" maxA target (Recipe.mk title url) rest
    (tried + 1) _
    (mem_recordMatch_self_of_both "" "" found title url tags_text
      (strContains_empty (pyLower tags_text))
      (strContains_empty (pyLower tags_text)))

/-- C10 witness: blank keywords record a successfully fetched page with
an unrelated haystack. -/
theorem scrape_recipes_empty_keywords_match_all_witness :
    strContains (pyLower "iets heel anders") "" = true ∧
    Recipe.mk "t" "u" ∈
      (scrapeLoop (fun _ => some ("t", "iets heel anders"))
        (pyLower (pyStrip "  ")) (pyLower (pyStrip "")) 3 1 ["u"] 0 []).2 :=
  scrape_recipes_empty_keywords_match_all (fun _ => some ("t", "iets heel anders"))
    "  " "" (by decide) (by decide) 3 1 "u" [] 0 [] "t" "iets heel anders"
    (by decide) (by decide) rfl

/-! ### Lemmas about the sitemap scan -/

theorem scanLocs_length_bound (max_urls : Nat) :
    ∀ (elems : List XmlElem) (urls : List String), urls.length < max_urls →
      (scanLocs max_urls elems urls).1.length ≤ max_urls ∧
      ((scanLocs max_urls elems urls).2 = false →
        (scanLocs max_urls elems urls).1.length < max_urls) := by
  intro elems
  induction elems with
  | nil =>
    intro urls h
    exact ⟨by simpa [scanLocs] using Nat.le_of_lt h, fun _ => by simpa [scanLocs] using h⟩
  | cons e rest ih =>
    intro urls h
    cases htxt : e.text with
    | none => simp only [scanLocs, htxt]; exact ih urls h
    | some txt =>
      simp only [scanLocs, htxt]
      split_ifs with hc hm hb
      · refine ⟨?_, fun hfalse => ?_⟩
        · dsimp only
          simp only [List.length_append, List.length_singleton]
          omega
        · simp at hfalse
      · exact ih (urls ++ [pyStrip txt]) (by simpa using Nat.lt_of_not_le hb)
      · exact ih urls h
      · exact ih urls h

theorem scanLocs_marker (max_urls : Nat) :
    ∀ (elems : List XmlElem) (urls : List String),
      (∀ u ∈ urls, strContains u RECIPE_MARKER = true) →
      ∀ u ∈ (scanLocs max_urls elems urls).1, strContains u RECIPE_MARKER = true := by
  intro elems
  induction elems with
  | nil =>
    intro urls h u hu
    exact h u (by simpa [scanLocs] using hu)
  | cons e rest ih =>
    intro urls h u hu
    cases htxt : e.text with
    | none =>
      simp only [scanLocs, htxt] at hu
      exact ih urls h u hu
    | some txt =>
      have hext : ∀ v ∈ urls ++ [pyStrip txt],
          strContains (pyStrip txt) RECIPE_MARKER = true →
          strContains v RECIPE_MARKER = true := by
        intro v hv hm
        rcases List.mem_append.mp hv with hv | hv
        · exact h v hv
        · rw [List.mem_singleton.mp hv]; exact hm
      simp only [scanLocs, htxt] at hu
      split_ifs at hu with hc hm hb
      · exact hext u (by simpa using hu) hm
      · exact ih (urls ++ [pyStrip txt]) (fun v hv => hext v hv hm) u hu
      · exact ih urls h u hu
      · exact ih urls h u hu

theorem scanLocs_early_stop (max_urls : Nat) :
    ∀ (elems extra : List XmlElem) (urls : List String),
      (scanLocs max_urls elems urls).2 = true →
      scanLocs max_urls (elems ++ extra) urls = scanLocs max_urls elems urls := by
  intro elems
  induction elems with
  | nil =>
    intro extra urls h
    simp [scanLocs] at h
  | cons e rest ih =>
    intro extra urls h
    cases htxt : e.text with
    | none =>
      simp only [List.cons_append, scanLocs, htxt] at h ⊢
      exact ih extra urls h
    | some txt =>
      simp only [List.cons_append, scanLocs, htxt] at h ⊢
      split_ifs at h ⊢ with hc hm hb
      · rfl
      · exact ih extra (urls ++ [pyStrip txt]) h
      · exact ih extra urls h
      · exact ih extra urls h

/-! ### Claim theorem C6 -/

/-- C6 counterexample: with `max_urls = 0`, the break check at source
line 73 runs only after the first append, so a sitemap with one matching
location yields one URL — more than the requested zero. -/
theorem sitemap_max_urls_zero_counterexample :
    ¬ ((get_recipe_urls_from_sitemap
        ⟨[⟨"loc", some "https://www.ah.nl/allerhande/recept/R-R1/x"⟩], false, []⟩
        0).length ≤ 0) := by decide

/-- C6 (amended): for `max_urls ≥ 1` the Sitemap Reader returns at most
`max_urls` URLs, each containing the recipe-path marker, and both the
streaming scan and the fallback scan stop as soon as the count is
reached: once a scan has broken early, any elements that would follow
are never consulted. -/
theorem sitemap_reader_bounded (doc : SitemapDoc) (max_urls : Nat)
    (h : 1 ≤ max_urls) :
    (get_recipe_urls_from_sitemap doc max_urls).length ≤ max_urls ∧
    (∀ u ∈ get_recipe_urls_from_sitemap doc max_urls,
      strContains u RECIPE_MARKER = true) ∧
    (∀ (elems extra : List XmlElem) (urls : List String),
      (scanLocs max_urls elems urls).2 = true →
      scanLocs max_urls (elems ++ extra) urls = scanLocs max_urls elems urls) := by
  have h0 : ([] : List String).length < max_urls := by simpa using h
  have hstream := scanLocs_length_bound max_urls doc.streamElems [] h0
  have hmark := scanLocs_marker max_urls doc.streamElems []
    (by intro u hu; simp at hu)
  refine ⟨?_, ?_, scanLocs_early_stop max_urls⟩
  · simp only [get_recipe_urls_from_sitemap]
    split_ifs with hbr hfail
    · exact hstream.1
    · exact (scanLocs_length_bound max_urls doc.fullElems _
        (hstream.2 (by simpa using hbr))).1
    · exact hstream.1
  · simp only [get_recipe_urls_from_sitemap]
    split_ifs with hbr hfail
    · exact hmark
    · exact scanLocs_marker max_urls doc.fullElems _ hmark
    · exact hmark

/-- C6 witness: a two-location sitemap with `max_urls = 1` keeps the
first recipe URL only. -/
theorem sitemap_reader_bounded_witness :
    (get_recipe_urls_from_sitemap
      ⟨[⟨"loc", some " https://www.ah.nl/allerhande/recept/R-R1/x "⟩,
        ⟨"loc", some "https://www.ah.nl/allerhande/recept/R-R2/y"⟩], false, []⟩
      1).length ≤ 1 :=
  (sitemap_reader_bounded
    ⟨[⟨"loc", some " https://www.ah.nl/allerhande/recept/R-R1/x "⟩,
      ⟨"loc", some "https://www.ah.nl/allerhande/recept/R-R2/y"⟩], false, []⟩
    1 (by decide)).1

end Gbot
